import Mathlib

/-!
# Verification of the GPU ecosystem simulation

Shallow embedding, over the rationals, of the compute kernels and host
logic of the WebGPU multi-agent ecosystem simulation:

* `src/shaders/agents.wgsl` — agent update kernel (`updateAgents`),
  reproduction kernel (`processReproduction`), lock-free free list
  (`freeListPush` / `freeListPop`), `fieldIdx`, `uptake`, `hash`.
* `src/shaders/fields.wgsl` — field update kernel (`updateFields`):
  resource and pheromone diffusion/decay/generation with clamping.
* `src/systems/agent-system.ts` — metrics buffer layout (23 u32 slots)
  and host readback.
* `src/types/agent.ts` — genetic trait ranges.

Machine floats are modelled by `ℚ` (exact arithmetic); `u32` values by
`ℕ` with explicit reductions mod `2^32` where the shader relies on
wrap-around.  WGSL `cos`, `sin` and `sqrt` have no exact rational
counterpart, so every definition that uses them takes the numeric
routine as an explicit function argument (`cosq`, `sinq`, `sqrtq`);
theorems that need facts about them state those facts as hypotheses.
Kernels are data-parallel; each embedded kernel definition gives the
per-invocation behaviour, and the free-list development models an
arbitrary serialisation of the atomic operations.
-/

/-- WGSL `clamp(x, lo, hi) = min(max(x, lo), hi)`. -/
def clampq (x lo hi : ℚ) : ℚ := min (max x lo) hi

/-- WGSL `mix(a, b, t) = a * (1 - t) + b * t` (linear blend). -/
def mixq (a b t : ℚ) : ℚ := a * (1 - t) + b * t

/-- Conversion `u32(f)` of a float to an unsigned integer: truncation
toward zero, with negative values flushed to zero (mirrors the WGSL
saturating conversion on the ranges used here). -/
def ratToU32 (q : ℚ) : ℕ := (⌊q⌋).toNat % 2 ^ 32

/-- Michaelis–Menten uptake, `fn uptake` in `agents.wgsl`:
`absorption * fieldValue / (saturationK + fieldValue)`. -/
def uptakeMM (saturationK fieldValue absorption : ℚ) : ℚ :=
  absorption * fieldValue / (saturationK + fieldValue)

/-- The integer core of `fn hash` in `agents.wgsl`, on `u32` values
modelled as naturals below `2^32`:
`x ^= x>>16; x *= 0x7feb352d; x ^= x>>15; x *= 0x846ca68b; x ^= x>>16`. -/
def hashU32 (seed : ℕ) : ℕ :=
  let x := seed % 2 ^ 32
  let x := x ^^^ (x >>> 16)
  let x := (x * 0x7feb352d) % 2 ^ 32
  let x := x ^^^ (x >>> 15)
  let x := (x * 0x846ca68b) % 2 ^ 32
  x ^^^ (x >>> 16)

/-- `fn hash` in `agents.wgsl`: hashed `u32` scaled into `[0,1]` by
`f32(x) / 4294967295.0`. -/
def hashQ (seed : ℕ) : ℚ := (hashU32 seed : ℚ) / 4294967295

/-- `fn randomDir` in `agents.wgsl`: unit direction at angle
`hash(seed) * 6.28318`.  `cosq`/`sinq` stand for the WGSL `cos`/`sin`. -/
def randomDir (cosq sinq : ℚ → ℚ) (seed : ℕ) : ℚ × ℚ :=
  let angle := hashQ seed * 6.28318
  (cosq angle, sinq angle)

/-- `fn fieldIdx` in `agents.wgsl`: both coordinates clamped to
`[0, gridSize-1]`, truncated to `u32`, then `iy * gridSize + ix`. -/
def fieldIdx (gridSize : ℕ) (x y : ℚ) : ℕ :=
  let size : ℚ := (gridSize : ℚ)
  let ix := ⌊clampq x 0 (size - 1)⌋.toNat
  let iy := ⌊clampq y 0 (size - 1)⌋.toNat
  iy * gridSize + ix

/-- Agent record, `struct Agent` in `agents.wgsl`. -/
structure Agent where
  posX : ℚ
  posY : ℚ
  velX : ℚ
  velY : ℚ
  energy : ℚ
  mode : ℕ
  stress : ℚ
  cooldown : ℚ
  efficiency : ℚ
  absorption : ℚ
  metabolism : ℚ
  moveCost : ℚ
  activity : ℚ
  agility : ℚ
  senseRange : ℚ
  aggression : ℚ
  evasion : ℚ
  sociality : ℚ
  reproThreshold : ℚ
  reproCooldown : ℚ
  alive : ℕ
  age : ℚ
  generation : ℕ
  deriving Repr, DecidableEq

/-- Mode constants from `agents.wgsl`. -/
def MODE_EXPLORE : ℕ := 0

def MODE_INTAKE : ℕ := 1

def MODE_EVADE : ℕ := 2

def MODE_REPRODUCE : ℕ := 3

/-- `struct SimParams` in `agents.wgsl` (as filled by the agent system). -/
structure SimParams where
  gridSize : ℕ
  agentCount : ℕ
  maxAgents : ℕ
  deltaTime : ℚ
  time : ℚ
  saturationK : ℚ
  densityPenalty : ℚ
  uptakeScale : ℚ
  energyCostScale : ℚ
  deriving Repr, DecidableEq

/-- Mode decision block of `updateAgents` (`agents.wgsl`, section 2):
reproduction is preferred only in safe places, panic forces evasion,
intake is chosen only when the danger-penalised expected gain is
positive enough, and exploration is the fallback. -/
def modeDecision (p : SimParams) (energy reproThreshold cooldown
    absorption efficiency currentRes currentDanger : ℚ) : ℕ :=
  if ¬ currentDanger > 0.9 ∧ energy ≥ reproThreshold ∧ cooldown ≤ 0 ∧
      currentDanger < 0.6 then
    MODE_REPRODUCE
  else
    let baseUptake := uptakeMM p.saturationK currentRes absorption *
      efficiency * p.uptakeScale
    let uptakePenalty := clampq (1 - currentDanger * 0.9) 0 1
    let expectedGain := baseUptake * uptakePenalty
    if currentDanger > 0.9 then MODE_EVADE
    else if currentRes > 0.12 ∧ expectedGain > 0.01 then MODE_INTAKE
    else MODE_EXPLORE

/-- The mode-decision priority order exactly as the specification words
it: hard panic first, then reproduction, then profitable intake, else
exploration, with the unclamped expected-gain formula. -/
def specModeDecision (p : SimParams) (energy reproThreshold cooldown
    absorption efficiency currentRes currentDanger : ℚ) : ℕ :=
  if currentDanger > 0.9 then MODE_EVADE
  else if energy ≥ reproThreshold ∧ cooldown ≤ 0 ∧ currentDanger < 0.6 then
    MODE_REPRODUCE
  else if currentRes > 0.12 ∧
      uptakeMM p.saturationK currentRes absorption * efficiency *
        p.uptakeScale * (1 - currentDanger * 0.9) > 0.01 then
    MODE_INTAKE
  else MODE_EXPLORE

/-!
## Free list (`agents.wgsl`, `freeListPush` / `freeListPop`)

The free list is `struct FreeList { count: atomic<u32>, indices }`.
State is modelled together with the ghost multiset of live agent
indices (the indices whose agent record has `alive = 1`).

Concurrency model.  Within one tick the host dispatches `updateAgents`
(which only pushes, from death branches) and then `processReproduction`
(which only pops); storage is coherent between dispatches.  Every
shared mutation is a single scalar atomic, so any contended execution
is an arbitrary serialisation of the operations: concurrent pushes
serialise in the order of their `atomicAdd` reservations (the writes go
to the distinct reserved slots and commute), and concurrent pops
serialise in the order of their successful `atomicCompareExchangeWeak`
decrements (failed attempts retry without effect, and no write to
`indices` happens in a pop-only dispatch, so the read of
`indices[count-1]` after the successful CAS is deterministic).  The
theorem therefore quantifies over every sequence of atomic push/pop
operations, covering every such interleaving.
-/

/-- Free-list state together with the ghost multiset of live indices. -/
structure FLState where
  live : Multiset ℕ
  flCount : ℕ
  flArr : ℕ → ℕ

/-- A serialised free-list operation: a death pushing its slot, or a
reproduction popping one. -/
inductive FLOp where
  | push (i : ℕ) : FLOp
  | pop : FLOp

/-- The entries currently on the free-list stack, as a multiset. -/
def flEntries (s : FLState) : Multiset ℕ :=
  ((List.range s.flCount).map s.flArr : List ℕ)

/-- One serialised operation.

`push i` (from the death branch of `updateAgents`, where the agent at
`i` was just marked dead): `atomicAdd` reserves slot `count`; if it is
below capacity the index is stored there, otherwise the overflow
protection decrements the count back and the index is dropped.

`pop` (from `processReproduction`): the CAS loop either observes an
empty list and returns `-1` (no state change), or decrements the count
and reads the old top entry, which becomes the live index of the
spawned child. -/
def flStep (maxAgents : ℕ) (s : FLState) : FLOp → FLState
  | .push i =>
    let slot := s.flCount
    if slot < maxAgents then
      { live := s.live.erase i
        flCount := slot + 1
        flArr := Function.update s.flArr slot i }
    else
      { live := s.live.erase i, flCount := s.flCount, flArr := s.flArr }
  | .pop =>
    if s.flCount = 0 then s
    else
      { live := s.live + {s.flArr (s.flCount - 1)}
        flCount := s.flCount - 1
        flArr := s.flArr }

/-- A sequence of operations is valid when every pushed index is live at
the moment of its push (only a live agent can die and push its slot). -/
def flValid (maxAgents : ℕ) (s : FLState) : List FLOp → Prop
  | [] => True
  | .push i :: rest =>
    i ∈ s.live ∧ flValid maxAgents (flStep maxAgents s (.push i)) rest
  | .pop :: rest => flValid maxAgents (flStep maxAgents s .pop) rest

instance flValidDecidable (maxAgents : ℕ) (s : FLState) (ops : List FLOp) :
    Decidable (flValid maxAgents s ops) := by
  induction ops generalizing s with
  | nil => exact isTrue trivial
  | cons op rest ih =>
    cases op with
    | push i =>
      haveI : Decidable (flValid maxAgents (flStep maxAgents s (.push i))
        rest) := ih _
      exact instDecidableAnd
    | pop => exact ih _

/-- Run a serialised sequence of free-list operations. -/
def flRun (maxAgents : ℕ) (s : FLState) (ops : List FLOp) : FLState :=
  ops.foldl (flStep maxAgents) s

/-- The free-list invariant: live indices and free-list entries cover
the index range `0 .. maxAgents-1` exactly once each. -/
def flInv (maxAgents : ℕ) (s : FLState) : Prop :=
  s.live + flEntries s = Multiset.range maxAgents



/-!
## Field update kernel (`fields.wgsl`)

`updateFields` runs once per grid cell, reading the previous buffers
and writing the next ones (double buffering).  Neighbour lookups wrap
around (torus).  The resource and pheromone paths below are embedded
from the `fields.wgsl` in the snapshot.  The danger path of the current
`fields.wgsl` is not in the snapshot (the shader file shipped with the
snapshot predates the field system in `field-system.ts`, which binds
`dangerIn`/`dangerOut`/`consume`/`deposit` and passes the
`dangerDecay`/`dangerDiffusionScale`/`dangerFromConsumption`
coefficients from the configuration); it is modelled from the
specification, see `updateDangerCell`.
-/

/-- `struct FieldParams`: the first seven fields are the uniform block
of the snapshot shader; the last three are the danger coefficients the
field system writes into the uniform buffer (`paramsData[7..9]`). -/
structure FieldParams where
  gridSize : ℕ
  diffusionCoeff : ℚ
  resourceDecay : ℚ
  pheromoneDecay : ℚ
  deltaTime : ℚ
  time : ℚ
  resourceGenRate : ℚ
  dangerDecay : ℚ
  dangerDiffusionScale : ℚ
  dangerFromConsumption : ℚ
  deriving Repr, DecidableEq

/-- `fn idx` in `fields.wgsl`: toroidal wrap `((x % size) + size) % size`
on both coordinates (`%` is the WGSL truncating remainder, `Int.tmod`),
then row-major index. -/
def torusIdx (gridSize : ℕ) (x y : ℤ) : ℕ :=
  let size : ℤ := (gridSize : ℤ)
  let wx := ((x.tmod size) + size).tmod size
  let wy := ((y.tmod size) + size).tmod size
  (wy * size + wx).toNat

/-- `fn laplacianRes` / `fn laplacianPher`: discrete Laplacian, sum of
the four wrapped neighbours minus four times the centre. -/
def laplacianQ (f : ℕ → ℚ) (gridSize : ℕ) (x y : ℤ) : ℚ :=
  let c := f (torusIdx gridSize x y)
  let l := f (torusIdx gridSize (x - 1) y)
  let r := f (torusIdx gridSize (x + 1) y)
  let u := f (torusIdx gridSize x (y - 1))
  let d := f (torusIdx gridSize x (y + 1))
  l + r + u + d - 4 * c

/-- `fn resourceGeneration`: eight slowly orbiting patches, each
contributing `genRate * (1 - dist/radius)` inside its radius, plus a
uniform background `genRate * 0.1`.  `cosq`/`sinq`/`sqrtq` stand for
the WGSL `cos`/`sin`/`sqrt`. -/
def resourceGeneration (fp : FieldParams) (cosq sinq sqrtq : ℚ → ℚ)
    (x y : ℤ) : ℚ :=
  let fx : ℚ := (x : ℚ)
  let fy : ℚ := (y : ℚ)
  let size : ℚ := (fp.gridSize : ℚ)
  let spawn := (List.range 8).foldl (fun spawn i =>
    let fi : ℚ := (i : ℚ)
    let angle := fi * 0.785398 + fp.time * 0.01
    let cx := size * 0.5 + cosq (angle + fi) * size * 0.3
    let cy := size * 0.5 + sinq (angle * 1.3 + fi * 0.5) * size * 0.3
    let dx := fx - cx
    let dy := fy - cy
    let dist := sqrtq (dx * dx + dy * dy)
    let radius := 80 + sinq (fi * 2) * 30
    if dist < radius then spawn + fp.resourceGenRate * (1 - dist / radius)
    else spawn) 0
  spawn + fp.resourceGenRate * 0.1

/-- Per-cell body of `updateFields` in `fields.wgsl`: the resource cell
is diffused (scaled by terrain resistance), decayed, regenerated and
clamped to `[0,1]`; the pheromone cell is diffused at twice the
coefficient, decayed at its own rate and clamped to `[0,1]`.  Returns
`(resOut[i], pheromoneOut[i])`. -/
def updateFieldsCell (fp : FieldParams) (resIn pheromoneIn terrain : ℕ → ℚ)
    (cosq sinq sqrtq : ℚ → ℚ) (x y : ℤ) : ℚ × ℚ :=
  let i := torusIdx fp.gridSize x y
  let dt := fp.deltaTime
  let terrainFactor := terrain i
  let res0 := resIn i
  let diffusion := laplacianQ resIn fp.gridSize x y * fp.diffusionCoeff *
    terrainFactor
  let res1 := res0 + diffusion * dt
  let res2 := res1 * (1 - fp.resourceDecay * dt)
  let res3 := res2 + resourceGeneration fp cosq sinq sqrtq x y * dt
  let pher0 := pheromoneIn i
  let pheromoneDiffusion := laplacianQ pheromoneIn fp.gridSize x y *
    fp.diffusionCoeff * 2
  let pher1 := pher0 + pheromoneDiffusion * dt
  let pher2 := pher1 * (1 - fp.pheromoneDecay * dt)
  (clampq res3 0 1, clampq pher2 0 1)

/-- Modelled from the spec: the danger path of the current
`fields.wgsl` is missing from the snapshot (only its caller
`field-system.ts` and the configuration coefficients are present).
Per the specification, the danger field diffuses and decays at its own
rate, absorbs a fraction (`dangerFromConsumption`) of the resource
actually consumed this tick — read from the agent-written per-cell
micro-accumulator (`resConsumeMicro`, micro units, hence `/ 1000000`) —
and the result is clamped to `[0,1]` like every field. -/
def updateDangerCell (fp : FieldParams) (dangerIn : ℕ → ℚ)
    (resConsumeMicro : ℕ → ℕ) (x y : ℤ) : ℚ :=
  let i := torusIdx fp.gridSize x y
  let dt := fp.deltaTime
  let d0 := dangerIn i
  let dangerDiffusion := laplacianQ dangerIn fp.gridSize x y *
    fp.diffusionCoeff * fp.dangerDiffusionScale
  let d1 := d0 + dangerDiffusion * dt
  let d2 := d1 * (1 - fp.dangerDecay * dt)
  let consumed := (resConsumeMicro i : ℚ) / 1000000
  let d3 := d2 + consumed * fp.dangerFromConsumption
  clampq d3 0 1


/-!
## Agent update kernel (`agents.wgsl`, `updateAgents`)

One invocation per agent index.  WGSL `cos`/`sin`/`sqrt` enter as the
function arguments `cosq`/`sinq`/`sqrtq`; the fields are the read-only
storage bindings, given as functions from flat cell index to value.
-/

/-- Componentwise sum of two 2-vectors. -/
def vAdd (a b : ℚ × ℚ) : ℚ × ℚ := (a.1 + b.1, a.2 + b.2)

/-- Scalar multiple of a 2-vector. -/
def vScale (c : ℚ) (a : ℚ × ℚ) : ℚ × ℚ := (c * a.1, c * a.2)

/-- WGSL `length` of a 2-vector, via the supplied square root. -/
def lengthV (sqrtq : ℚ → ℚ) (v : ℚ × ℚ) : ℚ := sqrtq (v.1 * v.1 + v.2 * v.2)

/-- WGSL `normalize` of a 2-vector. -/
def normalizeV (sqrtq : ℚ → ℚ) (v : ℚ × ℚ) : ℚ × ℚ :=
  (v.1 / lengthV sqrtq v, v.2 / lengthV sqrtq v)

/-- Accumulator of the sensing loop in `fn sense`. -/
structure SenseAcc where
  weightedDirX : ℚ
  weightedDirY : ℚ
  totalWeight : ℚ
  maxRes : ℚ
  totalDanger : ℚ
  totalPheromone : ℚ
  deriving Repr, DecidableEq

/-- `fn sense` in `agents.wgsl`: eight rays at 45-degree steps out to
the agent's sense range; resource-, terrain- and danger-weighted
average direction with a sociality-signed pheromone term; returns
(weighted direction, maximum sampled resource, crowding). -/
def sense (p : SimParams) (resF terrainF dangerF pherF : ℕ → ℚ)
    (cosq sinq : ℚ → ℚ) (agent : Agent) : (ℚ × ℚ) × ℚ × ℚ :=
  let acc := (List.range 8).foldl (fun (acc : SenseAcc) i =>
    let angle : ℚ := (i : ℚ) * 0.785398
    let dir : ℚ × ℚ := (cosq angle, sinq angle)
    let sampleX := agent.posX + dir.1 * agent.senseRange
    let sampleY := agent.posY + dir.2 * agent.senseRange
    let j := fieldIdx p.gridSize sampleX sampleY
    let r := resF j
    let d := dangerF j
    let t := terrainF j
    let ph := pherF j
    let weight := r * t * (1 - d * agent.evasion)
    let pheromoneInfluence := (agent.sociality - 0.5) * 2
    let weight := weight * (1 + ph * pheromoneInfluence * 0.5)
    { weightedDirX := acc.weightedDirX + dir.1 * weight
      weightedDirY := acc.weightedDirY + dir.2 * weight
      totalWeight := acc.totalWeight + weight
      maxRes := if r > acc.maxRes then r else acc.maxRes
      totalDanger := acc.totalDanger + d
      totalPheromone := acc.totalPheromone + ph }) ⟨0, 0, 0, 0, 0, 0⟩
  let weightedDir : ℚ × ℚ :=
    if acc.totalWeight > 0.001 then
      (acc.weightedDirX / acc.totalWeight, acc.weightedDirY / acc.totalWeight)
    else (acc.weightedDirX, acc.weightedDirY)
  let crowding := acc.totalDanger / 8 + acc.totalPheromone / 8 * 0.5
  (weightedDir, acc.maxRes, crowding)

/-- Result of the lifecycle resolution at the end of `updateAgents`
(section 6): death on exhausted energy, or the energy halving and
cooldown reset that flags a reproduction attempt. -/
structure LifecycleOut where
  energy : ℚ
  cooldown : ℚ
  alive : ℕ
  died : Bool
  deriving Repr, DecidableEq

/-- Lifecycle resolution of `updateAgents`: `energy ≤ 0` marks the
agent dead; otherwise mode `REPRODUCE` with elapsed cooldown halves the
energy and resets the cooldown to the `reproCooldown` trait. -/
def lifecycleResolve (mode : ℕ) (energy cooldown reproCooldown : ℚ) :
    LifecycleOut :=
  if energy ≤ 0 then ⟨energy, cooldown, 0, true⟩
  else if mode = MODE_REPRODUCE ∧ cooldown ≤ 0 then
    ⟨energy * 0.5, reproCooldown, 1, false⟩
  else ⟨energy, cooldown, 1, false⟩

/-- The movement target of `updateAgents` (section 3), one case per
behavioural mode. -/
def targetVelocity (cosq sinq sqrtq : ℚ → ℚ) (agent : Agent)
    (newMode : ℕ) (seed : ℕ) (sensedDir : ℚ × ℚ)
    (nearbyResource crowding : ℚ) : ℚ × ℚ :=
  let explorationFactor := 0.5 + agent.activity * 0.3
  let randomVec := vScale explorationFactor (randomDir cosq sinq seed)
  if newMode = MODE_EXPLORE then
    let exploreDir := vAdd sensedDir randomVec
    let exploreDir :=
      if crowding > 0.3 ∧ agent.sociality < 0.5 then
        vAdd (vScale (-0.5) sensedDir) (vScale 1.5 randomVec)
      else exploreDir
    let exploreDir :=
      if nearbyResource < 0.1 then
        vAdd (vScale 2 randomVec) (vScale 0.3 (agent.velX, agent.velY))
      else exploreDir
    vScale agent.activity (normalizeV sqrtq (vAdd exploreDir (0.001, 0.001)))
  else if newMode = MODE_INTAKE then
    let driftDir := vScale 0.2 (randomDir cosq sinq (seed + 1))
    vScale (agent.activity * 0.3) driftDir
  else if newMode = MODE_EVADE then
    let escapeDir := normalizeV sqrtq (vAdd sensedDir (0.001, 0.001))
    vScale (agent.activity * 1.8) (vAdd escapeDir (vScale 0.3 randomVec))
  else if newMode = MODE_REPRODUCE then
    vScale 0.1 (randomDir cosq sinq (seed + 2))
  else vScale agent.activity (randomDir cosq sinq seed)

/-- Per-invocation result of `updateAgents`: the written agent record
and the atomic side effects (death counter changes, free-list push,
per-cell micro-accumulator adds, global uptake counter add). -/
structure StepResult where
  agent : Agent
  died : Bool
  pushedSlot : Option ℕ
  resConsumeAdd : Option (ℕ × ℕ)
  pherDepositAdd : Option (ℕ × ℕ)
  uptakeMicroAdd : ℕ
  deriving Repr, DecidableEq

/-- `updateAgents` in `agents.wgsl`, one invocation: guard on the index
and the alive flag, sensing, mode decision, movement with inertia and
terrain resistance, boundary clamping, resource intake with the
danger-penalised Michaelis–Menten uptake, pheromone deposit while
moving, energy costs (metabolism, movement, crowding, stress EMA), and
lifecycle resolution. -/
def updateAgents (p : SimParams) (resF terrainF dangerF pherF : ℕ → ℚ)
    (cosq sinq sqrtq : ℚ → ℚ) (idx : ℕ) (agent : Agent) : StepResult :=
  if idx ≥ p.agentCount then ⟨agent, false, none, none, none, 0⟩
  else if agent.alive = 0 then ⟨agent, false, none, none, none, 0⟩
  else
    let dt := p.deltaTime
    let seed := idx * 1000 + ratToU32 (p.time * 1000)
    let senseResult := sense p resF terrainF dangerF pherF cosq sinq agent
    let sensedDir := senseResult.1
    let nearbyResource := senseResult.2.1
    let crowding := senseResult.2.2
    let posIdx := fieldIdx p.gridSize agent.posX agent.posY
    let currentRes := resF posIdx
    let currentTerrain := terrainF posIdx
    let currentDanger := dangerF posIdx
    let newMode := modeDecision p agent.energy agent.reproThreshold
      agent.cooldown agent.absorption agent.efficiency currentRes
      currentDanger
    let targetVel := targetVelocity cosq sinq sqrtq agent newMode seed
      sensedDir nearbyResource crowding
    let tmix := agent.agility * dt * 5
    let velX := mixq agent.velX targetVel.1 tmix
    let velY := mixq agent.velY targetVel.2 tmix
    let speed := lengthV sqrtq (velX, velY) * currentTerrain
    let size := (p.gridSize : ℚ) - 1
    let posX := clampq (agent.posX + velX * (currentTerrain * dt * 20)) 0 size
    let posY := clampq (agent.posY + velY * (currentTerrain * dt * 20)) 0 size
    let fieldI := fieldIdx p.gridSize posX posY
    let uptakePenalty := clampq (1 - currentDanger * 0.9) 0 1
    let uptakeAmount := uptakeMM p.saturationK currentRes agent.absorption *
      agent.efficiency * p.uptakeScale * uptakePenalty * dt
    let energy1 :=
      if newMode = MODE_INTAKE then agent.energy + uptakeAmount
      else agent.energy
    let resConsumeAdd :=
      if newMode = MODE_INTAKE then
        some (fieldI, ratToU32 (uptakeAmount * 1000000))
      else none
    let uptakeMicroAdd :=
      if newMode = MODE_INTAKE then ratToU32 (uptakeAmount * 1000000) else 0
    let pherDepositAdd :=
      if speed > 0.1 then some (fieldI, ratToU32 (0.03 * dt * 1000000))
      else none
    let energyCost := agent.metabolism * dt * p.energyCostScale
    let energyCost := energyCost + agent.moveCost * speed * dt *
      p.energyCostScale
    let localPheromone := pherF fieldI
    let energyCost := energyCost + p.densityPenalty * localPheromone * dt
    let stress1 := mixq agent.stress currentDanger 0.1
    let energyCost := energyCost + stress1 * 0.15 * dt * p.energyCostScale
    let energy2 := max 0 (energy1 - energyCost)
    let cooldown1 := max 0 (agent.cooldown - dt)
    let age1 := agent.age + dt
    let lc := lifecycleResolve newMode energy2 cooldown1 agent.reproCooldown
    let agent1 : Agent := { agent with
      posX := posX
      posY := posY
      velX := velX
      velY := velY
      energy := lc.energy
      mode := newMode
      stress := stress1
      cooldown := lc.cooldown
      alive := lc.alive
      age := age1 }
    ⟨agent1, lc.died, if lc.died then some idx else none, resConsumeAdd,
      pherDepositAdd, uptakeMicroAdd⟩

/-!
## Metrics block and reproduction kernel

The host (`agent-system.ts`) allocates the metrics buffer as 23 `u32`
slots: `[0] alive`, `[1] births`, `[2] deaths`, `[3] uptakeMicro`,
`[4..10]` living-sample count and trait sums, `[11..16]` recent-births
trait sums (efficiency, metabolism, activity, senseRange, evasion,
sociality, milli- or deci-scaled), `[17..22]` recent-deaths trait sums;
it reads all of them back and drains slots `1..22` after each sample.
-/

/-- Number of `u32` slots of the metrics buffer
(`METRICS_U32_COUNT` in `agent-system.ts`). -/
def METRICS_SLOTS : ℕ := 23

/-- Metrics effect of the death branch of `updateAgents`
(`agents.wgsl` section 6): `atomicAdd(&metrics.deaths, 1)` (slot 2) and
`atomicSub(&metrics.alive, 1)` (slot 0).  The dying agent `a` is in
scope at that point in the shader but none of its fields are read: no
other metrics slot is touched. -/
def applyDeathMetrics (a : Agent) (m : Fin 23 → ℕ) : Fin 23 → ℕ :=
  fun i => if (i : ℕ) = 2 then m i + 1 else if (i : ℕ) = 0 then m i - 1
  else m i

/-- Metrics effect of a successful spawn in `processReproduction`
(`agents.wgsl`): `atomicAdd(&metrics.births, 1)` (slot 1) and
`atomicAdd(&metrics.alive, 1)` (slot 0).  The freshly built `child`
record is in scope but none of its fields are accumulated: no other
metrics slot is touched. -/
def applyBirthMetrics (child : Agent) (m : Fin 23 → ℕ) : Fin 23 → ℕ :=
  fun i => if (i : ℕ) = 1 then m i + 1 else if (i : ℕ) = 0 then m i + 1
  else m i

/-- Child construction of `processReproduction` (`agents.wgsl`):
position near the parent (random unit direction scaled by `5.0`, no
clamping), small random velocity, energy `0.8` of the parent's
(post-halving) energy, mode reset to `EXPLORE`, cooldown from the
parent's trait, every genetic trait perturbed by a uniform offset
(`hash(seed+k) - 0.5`) scaled by a trait-specific magnitude and clamped
to the trait's valid range, generation incremented. -/
def makeChild (cosq sinq : ℚ → ℚ) (time : ℚ) (idx : ℕ) (parent : Agent) :
    Agent :=
  let seed := idx * 7919 + ratToU32 (time * 1000)
  let offset := vScale 5 (randomDir cosq sinq seed)
  let vel := vScale 0.5 (randomDir cosq sinq (seed + 1))
  let mutationRate : ℚ := 0.1
  { posX := parent.posX + offset.1
    posY := parent.posY + offset.2
    velX := vel.1
    velY := vel.2
    energy := parent.energy * 0.8
    mode := MODE_EXPLORE
    stress := 0
    cooldown := parent.reproCooldown
    efficiency := clampq (parent.efficiency +
      (hashQ (seed + 10) - 0.5) * mutationRate) 0.1 2
    absorption := clampq (parent.absorption +
      (hashQ (seed + 11) - 0.5) * mutationRate) 0.1 2
    metabolism := clampq (parent.metabolism +
      (hashQ (seed + 12) - 0.5) * mutationRate * 0.5) 0.01 0.2
    moveCost := clampq (parent.moveCost +
      (hashQ (seed + 13) - 0.5) * mutationRate * 0.2) 0.001 0.05
    activity := clampq (parent.activity +
      (hashQ (seed + 14) - 0.5) * mutationRate) 0.5 3
    agility := clampq (parent.agility +
      (hashQ (seed + 15) - 0.5) * mutationRate) 0.5 2
    senseRange := clampq (parent.senseRange +
      (hashQ (seed + 16) - 0.5) * mutationRate * 10) 5 50
    aggression := clampq (parent.aggression +
      (hashQ (seed + 17) - 0.5) * mutationRate) 0 1
    evasion := clampq (parent.evasion +
      (hashQ (seed + 18) - 0.5) * mutationRate) 0 1
    sociality := clampq (parent.sociality +
      (hashQ (seed + 19) - 0.5) * mutationRate) 0 1
    reproThreshold := clampq (parent.reproThreshold +
      (hashQ (seed + 20) - 0.5) * mutationRate * 10) 50 200
    reproCooldown := clampq (parent.reproCooldown +
      (hashQ (seed + 21) - 0.5) * mutationRate * 5) 10 100
    alive := 1
    age := 0
    generation := parent.generation + 1 }

/-- Shared state touched by `processReproduction`: the agent array, the
allocated-count high-water mark (`agentCount` binding), the metrics
block, and the free list. -/
structure ReproState where
  agents : ℕ → Agent
  agentCount : ℕ
  metrics : Fin 23 → ℕ
  freeCount : ℕ
  freeArr : ℕ → ℕ

/-- `processReproduction` in `agents.wgsl`, one invocation: guard on
index, alive flag and mode; slot acquisition first from the free list
(`freeListPop`), else by atomically bumping the allocated count, with
the bump rolled back (net unchanged) and the attempt silently dropped
when it reaches `maxAgents`; then child construction and the birth
metrics updates. -/
def processReproduction (p : SimParams) (cosq sinq : ℚ → ℚ) (idx : ℕ)
    (s : ReproState) : ReproState :=
  if idx ≥ p.agentCount then s
  else
    let parent := s.agents idx
    if parent.alive = 0 ∨ parent.mode ≠ MODE_REPRODUCE then s
    else if s.freeCount ≠ 0 then
      let newIdx := s.freeArr (s.freeCount - 1)
      let child := makeChild cosq sinq p.time idx parent
      { agents := Function.update s.agents newIdx child
        agentCount := s.agentCount
        metrics := applyBirthMetrics child s.metrics
        freeCount := s.freeCount - 1
        freeArr := s.freeArr }
    else
      let newIdx := s.agentCount
      if newIdx ≥ p.maxAgents then s
      else
        let child := makeChild cosq sinq p.time idx parent
        { agents := Function.update s.agents newIdx child
          agentCount := s.agentCount + 1
          metrics := applyBirthMetrics child s.metrics
          freeCount := s.freeCount
          freeArr := s.freeArr }


/-- A concrete agent record used by witnesses (alive, mode `EXPLORE`,
traits at their defaults). -/
def witnessAgent : Agent :=
  ⟨10, 10, 0, 0, 100, 0, 0, 0, 1, 1, 1 / 20, 1 / 100, 1, 1, 20, 3 / 10,
    1 / 2, 1 / 2, 100, 30, 1, 0, 0⟩

/-- Concrete simulation parameters used by witnesses. -/
def witnessParams : SimParams := ⟨64, 4, 8, 1 / 10, 0, 3 / 10, 1 / 10, 1, 1⟩

/-- A concrete reproduction-kernel state used by witnesses: one flagged
parent, an empty free list, and the high-water mark at capacity. -/
def witnessReproState : ReproState :=
  ⟨fun j => if j = 0 then { witnessAgent with mode := MODE_REPRODUCE }
    else { witnessAgent with alive := 0 }, 1, fun j => (j : ℕ), 0, fun j => j⟩

/-! ## Theorems -/

theorem clampq_eq_self {x lo hi : ℚ} (h0 : lo ≤ x) (h1 : x ≤ hi) :
    clampq x lo hi = x := by
  unfold clampq
  rw [max_eq_left h0, min_eq_left h1]

theorem clampq_le {x lo hi : ℚ} (h : lo ≤ hi) :
    lo ≤ clampq x lo hi ∧ clampq x lo hi ≤ hi := by
  unfold clampq
  constructor
  · exact le_min (le_max_right x lo) h
  · exact min_le_right _ _

/-- **C4.** For any live agent, the mode computed by `updateAgents`
follows the specification's priority order: danger above the hard panic
threshold `0.9` forces `EVADE`; otherwise energy at least
`reproThreshold`, elapsed cooldown, and danger below `0.6` give
`REPRODUCE`; otherwise resource above `0.12` together with expected net
intake `uptake(res, absorption) * efficiency * uptakeScale *
(1 - danger * 0.9)` above `0.01` gives `INTAKE`; otherwise `EXPLORE`.
The only hypothesis is that the sampled danger is non-negative (danger
field values are clamped to `[0,1]`), under which the kernel's clamp of
the penalty factor is the identity. -/
theorem modeDecision_follows_spec_priority (p : SimParams)
    (energy reproThreshold cooldown absorption efficiency currentRes
      currentDanger : ℚ) (hd : 0 ≤ currentDanger) :
    modeDecision p energy reproThreshold cooldown absorption efficiency
        currentRes currentDanger =
      specModeDecision p energy reproThreshold cooldown absorption
        efficiency currentRes currentDanger := by
  unfold modeDecision specModeDecision
  by_cases hpanic : currentDanger > 0.9
  · simp only [hpanic, not_true_eq_false, false_and, if_false, if_true]
  · have hpen : clampq (1 - currentDanger * 0.9) 0 1 =
        1 - currentDanger * 0.9 := by
      apply clampq_eq_self
      · have : currentDanger ≤ 0.9 := le_of_not_lt hpanic
        nlinarith
      · nlinarith
    simp only [hpanic, not_false_eq_true, true_and, if_false, hpen]

/-- Witness for `modeDecision_follows_spec_priority` at a concrete
input (danger `1/2`, an energetic agent off cooldown ends in
`REPRODUCE` on both sides). -/
theorem modeDecision_follows_spec_priority_witness :
    0 ≤ (1 / 2 : ℚ) ∧
      modeDecision ⟨64, 10, 20, 1, 0, 3 / 10, 1 / 10, 1, 1⟩ 150 100 0 1 1
          (1 / 2) (1 / 2) =
        specModeDecision ⟨64, 10, 20, 1, 0, 3 / 10, 1 / 10, 1, 1⟩ 150 100 0
          1 1 (1 / 2) (1 / 2) :=
  ⟨by norm_num,
    modeDecision_follows_spec_priority ⟨64, 10, 20, 1, 0, 3 / 10, 1 / 10, 1, 1⟩
      150 100 0 1 1 (1 / 2) (1 / 2) (by norm_num)⟩

theorem flEntries_card (s : FLState) :
    Multiset.card (flEntries s) = s.flCount := by
  simp [flEntries]

theorem flInv_count_lt {maxAgents : ℕ} {s : FLState}
    (hinv : flInv maxAgents s) {i : ℕ} (hi : i ∈ s.live) :
    s.flCount < maxAgents := by
  have hcard := congrArg Multiset.card hinv
  rw [Multiset.card_add, flEntries_card, Multiset.card_range] at hcard
  have hne : s.live ≠ 0 := fun h => by simp [h] at hi
  have : 0 < Multiset.card s.live := Multiset.card_pos.mpr hne
  omega

theorem flEntries_push {s : FLState} {i : ℕ} :
    flEntries ⟨s.live.erase i, s.flCount + 1,
        Function.update s.flArr s.flCount i⟩ =
      flEntries s + {i} := by
  unfold flEntries
  rw [List.range_succ, List.map_append]
  have hmap : (List.range s.flCount).map (Function.update s.flArr s.flCount i) =
      (List.range s.flCount).map s.flArr := by
    apply List.map_congr_left
    intro j hj
    have : j ≠ s.flCount := Nat.ne_of_lt (List.mem_range.mp hj)
    exact Function.update_noteq this _ _
  rw [hmap]
  simp only [List.map_cons, List.map_nil, Function.update_same]
  rw [← Multiset.coe_singleton i, ← Multiset.coe_add]

theorem flEntries_pop {s : FLState} (h : s.flCount ≠ 0) :
    flEntries s =
      flEntries ⟨s.live + {s.flArr (s.flCount - 1)},
          s.flCount - 1, s.flArr⟩ +
        {s.flArr (s.flCount - 1)} := by
  unfold flEntries
  conv_lhs => rw [show s.flCount = (s.flCount - 1) + 1 from (Nat.succ_pred_eq_of_pos (Nat.pos_of_ne_zero h)).symm]
  rw [List.range_succ, List.map_append, ← Multiset.coe_singleton,
    ← Multiset.coe_add]
  rfl

theorem flStep_preserves_inv {maxAgents : ℕ} {s : FLState} {op : FLOp}
    (hinv : flInv maxAgents s)
    (hvalid : ∀ i, op = .push i → i ∈ s.live) :
    flInv maxAgents (flStep maxAgents s op) := by
  cases op with
  | push i =>
    have hi : i ∈ s.live := hvalid i rfl
    have hlt : s.flCount < maxAgents := flInv_count_lt hinv hi
    unfold flInv flStep
    simp only [if_pos hlt]
    rw [flEntries_push]
    have : s.live.erase i + (flEntries s + {i}) =
        (s.live.erase i + {i}) + flEntries s := by
      rw [add_comm (flEntries s) {i}, ← add_assoc]
    rw [this]
    have herase : s.live.erase i + {i} = s.live := by
      rw [add_comm]
      exact Multiset.singleton_add i (s.live.erase i) ▸ Multiset.cons_erase hi
    rw [herase]
    exact hinv
  | pop =>
    by_cases h0 : s.flCount = 0
    · unfold flInv flStep
      simp only [if_pos h0]
      exact hinv
    · unfold flInv flStep
      simp only [if_neg h0]
      have hsplit := flEntries_pop (s := s) h0
      calc s.live + {s.flArr (s.flCount - 1)} +
            flEntries ⟨s.live + {s.flArr (s.flCount - 1)},
              s.flCount - 1, s.flArr⟩
          = s.live + (flEntries ⟨s.live + {s.flArr (s.flCount - 1)},
              s.flCount - 1, s.flArr⟩ +
            {s.flArr (s.flCount - 1)}) := by
            rw [add_assoc, add_comm {s.flArr (s.flCount - 1)}]
        _ = s.live + flEntries s := by rw [← hsplit]
        _ = Multiset.range maxAgents := hinv

/-- **C1.** For every serialised sequence of `freeListPush` /
`freeListPop` operations — covering every contended interleaving within
one tick, since each operation's shared effect is a single scalar
atomic (see the module comment) — starting from a state where the
multiset of live agent indices together with the free-list entries
covers the index range `0 .. maxAgents-1` exactly once, that invariant
is preserved: no index is ever lost or duplicated between the agent
store and the free list.  In particular the push overflow branch, which
would drop an index, is never reached from such a state. -/
theorem freeList_invariant_preserved (maxAgents : ℕ) (s : FLState)
    (ops : List FLOp) (hinv : flInv maxAgents s)
    (hvalid : flValid maxAgents s ops) :
    flInv maxAgents (flRun maxAgents s ops) := by
  induction ops generalizing s with
  | nil => exact hinv
  | cons op rest ih =>
    cases op with
    | push i =>
      obtain ⟨hi, hrest⟩ := hvalid
      exact ih _ (flStep_preserves_inv hinv (fun j hj => by
        cases hj; exact hi)) hrest
    | pop =>
      exact ih _ (flStep_preserves_inv hinv (fun j hj => by cases hj)) hvalid

/-- Witness for `freeList_invariant_preserved`: capacity `3`, live
indices `{0, 2}`, free list holding `1`; a death of agent `0`, two pops
and a further push, all validated, preserve the invariant. -/
theorem freeList_invariant_preserved_witness :
    flInv 3 ⟨{0, 2}, 1, fun j => if j = 0 then 1 else 9⟩ ∧
      flValid 3 ⟨{0, 2}, 1, fun j => if j = 0 then 1 else 9⟩
        [.push 0, .pop, .pop, .push 1] ∧
      flInv 3 (flRun 3 ⟨{0, 2}, 1, fun j => if j = 0 then 1 else 9⟩
        [.push 0, .pop, .pop, .push 1]) := by
  have h1 : flInv 3 ⟨{0, 2}, 1, fun j => if j = 0 then 1 else 9⟩ := by
    unfold flInv flEntries
    decide
  have h2 : flValid 3 ⟨{0, 2}, 1, fun j => if j = 0 then 1 else 9⟩
      [.push 0, .pop, .pop, .push 1] := by decide
  exact ⟨h1, h2, freeList_invariant_preserved 3 _ _ h1 h2⟩


/-- **C9.** An agent record with `alive = 0` is inert: `updateAgents`
returns before any write, so the record — position, velocity, energy,
mode, stress, cooldown, genetic traits, age and generation — is
returned unchanged and no side effect (death counters, free-list push,
accumulator adds) is produced, until the slot is overwritten by
reproduction. -/
theorem updateAgents_dead_agent_inert (p : SimParams)
    (resF terrainF dangerF pherF : ℕ → ℚ) (cosq sinq sqrtq : ℚ → ℚ)
    (idx : ℕ) (agent : Agent) (halive : agent.alive = 0) :
    updateAgents p resF terrainF dangerF pherF cosq sinq sqrtq idx agent =
      ⟨agent, false, none, none, none, 0⟩ := by
  unfold updateAgents
  simp [halive]

/-- Witness for `updateAgents_dead_agent_inert` on a concrete dead
agent. -/
theorem updateAgents_dead_agent_inert_witness :
    ({ witnessAgent with alive := 0 } : Agent).alive = 0 ∧
      updateAgents witnessParams (fun j => (j : ℚ)) (fun j => (j : ℚ))
          (fun j => (j : ℚ)) (fun j => (j : ℚ)) (fun q => q) (fun q => q)
          (fun q => q) 0 { witnessAgent with alive := 0 } =
        ⟨{ witnessAgent with alive := 0 }, false, none, none, none, 0⟩ :=
  ⟨rfl,
    updateAgents_dead_agent_inert witnessParams (fun j => (j : ℚ))
      (fun j => (j : ℚ)) (fun j => (j : ℚ)) (fun j => (j : ℚ)) (fun q => q)
      (fun q => q) (fun q => q) 0 { witnessAgent with alive := 0 } rfl⟩

/-- **C8.** When a reproduction attempt finds the free list empty and
the atomic bump of the allocated count yields an index at or beyond
`maxAgents`, `processReproduction` rolls the bump back and returns:
the agent array, the metrics block (births and alive counters), the
free list and — net of the rolled-back bump — the allocated count are
all exactly as before, and the attempt is dropped with no error value
of any kind (the kernel has no error channel). -/
theorem processReproduction_capacity_drop (p : SimParams)
    (cosq sinq : ℚ → ℚ) (idx : ℕ) (s : ReproState)
    (hidx : idx < p.agentCount) (halive : (s.agents idx).alive ≠ 0)
    (hmode : (s.agents idx).mode = MODE_REPRODUCE)
    (hfree : s.freeCount = 0) (hcap : p.maxAgents ≤ s.agentCount) :
    processReproduction p cosq sinq idx s = s := by
  unfold processReproduction
  rw [if_neg (not_le.mpr hidx)]
  rw [if_neg (by push_neg; exact ⟨halive, hmode⟩)]
  rw [if_neg (by simpa using hfree)]
  rw [if_pos hcap]

/-- Witness for `processReproduction_capacity_drop` on a concrete
full-capacity state. -/
theorem processReproduction_capacity_drop_witness :
    0 < witnessParams.agentCount ∧
      (witnessReproState.agents 0).alive ≠ 0 ∧
      (witnessReproState.agents 0).mode = MODE_REPRODUCE ∧
      witnessReproState.freeCount = 0 ∧
      witnessParams.maxAgents ≤ 8 + witnessReproState.agentCount ∧
      processReproduction witnessParams (fun q => q) (fun q => q) 0
          { witnessReproState with agentCount := 9 } =
        { witnessReproState with agentCount := 9 } :=
  ⟨by norm_num [witnessParams], by decide, by decide, rfl, by decide,
    processReproduction_capacity_drop witnessParams (fun q => q) (fun q => q)
      0 { witnessReproState with agentCount := 9 }
      (by norm_num [witnessParams]) (by decide) (by decide) rfl (by decide)⟩

/-- **C5.** A parent that resolves reproduction in `updateAgents`
(mode `REPRODUCE`, positive energy `E`, elapsed cooldown) keeps exactly
half its energy; the child spawned by `processReproduction` from the
stored (post-halving) record gets `0.8 · (0.5 · E) = 0.4 · E`; parent
plus child therefore retain `0.9 · E` of the pre-reproduction energy —
exactly, in the exact-arithmetic model, hence within floating-point
tolerance in the shader. -/
theorem reproduction_energy_split (cosq sinq : ℚ → ℚ) (time : ℚ)
    (idx : ℕ) (E cooldown reproCooldown : ℚ) (parent : Agent)
    (hE : 0 < E) (hcd : cooldown ≤ 0)
    (hparent : parent.energy =
      (lifecycleResolve MODE_REPRODUCE E cooldown reproCooldown).energy) :
    (lifecycleResolve MODE_REPRODUCE E cooldown reproCooldown).energy =
        0.5 * E ∧
      (makeChild cosq sinq time idx parent).energy = 0.4 * E ∧
      (lifecycleResolve MODE_REPRODUCE E cooldown reproCooldown).energy +
          (makeChild cosq sinq time idx parent).energy = 0.9 * E := by
  have hlc : (lifecycleResolve MODE_REPRODUCE E cooldown reproCooldown).energy
      = 0.5 * E := by
    unfold lifecycleResolve
    rw [if_neg (not_le.mpr hE), if_pos ⟨rfl, hcd⟩]
    ring
  have hchild : (makeChild cosq sinq time idx parent).energy =
      parent.energy * 0.8 := by
    simp [makeChild]
  refine ⟨hlc, ?_, ?_⟩
  · rw [hchild, hparent, hlc]; ring
  · rw [hchild, hparent, hlc]; ring

/-- Witness for `reproduction_energy_split` at parent energy `100`. -/
theorem reproduction_energy_split_witness :
    (0 : ℚ) < 100 ∧ (0 : ℚ) ≤ 0 ∧
      ({ witnessAgent with energy := 50 } : Agent).energy =
        (lifecycleResolve MODE_REPRODUCE 100 0 30).energy ∧
      ((lifecycleResolve MODE_REPRODUCE 100 0 30).energy = 0.5 * 100 ∧
        (makeChild (fun q => q) (fun q => q) 0 0
          { witnessAgent with energy := 50 }).energy = 0.4 * 100 ∧
        (lifecycleResolve MODE_REPRODUCE 100 0 30).energy +
            (makeChild (fun q => q) (fun q => q) 0 0
              { witnessAgent with energy := 50 }).energy = 0.9 * 100) :=
  ⟨by norm_num, le_refl 0,
    by norm_num [lifecycleResolve, MODE_REPRODUCE, witnessAgent],
    reproduction_energy_split (fun q => q) (fun q => q) 0 0 100 0 30
      { witnessAgent with energy := 50 } (by norm_num) (le_refl 0)
      (by norm_num [lifecycleResolve, MODE_REPRODUCE, witnessAgent])⟩

/-- **C6.** For every parent record and every seed, each of the 12
genetic traits of the child built by `processReproduction` is the
parent trait perturbed by an independent uniform offset
(`hash(seed + k) - 0.5`) scaled by a trait-specific magnitude and then
clamped into that trait's valid range, so no child trait ever falls
outside its `[min, max]`: efficiency and absorption in `[0.1, 2]`,
metabolism in `[0.01, 0.2]`, moveCost in `[0.001, 0.05]`, activity in
`[0.5, 3]`, agility in `[0.5, 2]`, senseRange in `[5, 50]`, aggression,
evasion and sociality in `[0, 1]`, reproThreshold in `[50, 200]`,
reproCooldown in `[10, 100]` — matching `GENETIC_RANGES` in
`agent.ts`. -/
theorem makeChild_traits_in_range (cosq sinq : ℚ → ℚ) (time : ℚ)
    (idx : ℕ) (parent : Agent) :
    (0.1 ≤ (makeChild cosq sinq time idx parent).efficiency ∧
        (makeChild cosq sinq time idx parent).efficiency ≤ 2) ∧
      (0.1 ≤ (makeChild cosq sinq time idx parent).absorption ∧
        (makeChild cosq sinq time idx parent).absorption ≤ 2) ∧
      (0.01 ≤ (makeChild cosq sinq time idx parent).metabolism ∧
        (makeChild cosq sinq time idx parent).metabolism ≤ 0.2) ∧
      (0.001 ≤ (makeChild cosq sinq time idx parent).moveCost ∧
        (makeChild cosq sinq time idx parent).moveCost ≤ 0.05) ∧
      (0.5 ≤ (makeChild cosq sinq time idx parent).activity ∧
        (makeChild cosq sinq time idx parent).activity ≤ 3) ∧
      (0.5 ≤ (makeChild cosq sinq time idx parent).agility ∧
        (makeChild cosq sinq time idx parent).agility ≤ 2) ∧
      (5 ≤ (makeChild cosq sinq time idx parent).senseRange ∧
        (makeChild cosq sinq time idx parent).senseRange ≤ 50) ∧
      (0 ≤ (makeChild cosq sinq time idx parent).aggression ∧
        (makeChild cosq sinq time idx parent).aggression ≤ 1) ∧
      (0 ≤ (makeChild cosq sinq time idx parent).evasion ∧
        (makeChild cosq sinq time idx parent).evasion ≤ 1) ∧
      (0 ≤ (makeChild cosq sinq time idx parent).sociality ∧
        (makeChild cosq sinq time idx parent).sociality ≤ 1) ∧
      (50 ≤ (makeChild cosq sinq time idx parent).reproThreshold ∧
        (makeChild cosq sinq time idx parent).reproThreshold ≤ 200) ∧
      (10 ≤ (makeChild cosq sinq time idx parent).reproCooldown ∧
        (makeChild cosq sinq time idx parent).reproCooldown ≤ 100) := by
  simp only [makeChild]
  exact ⟨clampq_le (by norm_num), clampq_le (by norm_num),
    clampq_le (by norm_num), clampq_le (by norm_num),
    clampq_le (by norm_num), clampq_le (by norm_num),
    clampq_le (by norm_num), clampq_le (by norm_num),
    clampq_le (by norm_num), clampq_le (by norm_num),
    clampq_le (by norm_num), clampq_le (by norm_num)⟩


/-- **C3.** If every cell of the resource, danger and pheromone fields
lies in `[0,1]` before the update, every cell of all three fields lies
in `[0,1]` after the field-update kernel runs: the resource and
pheromone paths of `updateFields` clamp their results to `[0,1]`
unconditionally, and the per-cell danger value (modelled from the spec,
`updateDangerCell`) is clamped likewise. -/
theorem fields_stay_in_unit_interval (fp : FieldParams)
    (resIn pheromoneIn terrain dangerIn : ℕ → ℚ)
    (resConsumeMicro : ℕ → ℕ) (cosq sinq sqrtq : ℚ → ℚ) (x y : ℤ)
    (hres : ∀ i, 0 ≤ resIn i ∧ resIn i ≤ 1)
    (hdan : ∀ i, 0 ≤ dangerIn i ∧ dangerIn i ≤ 1)
    (hpher : ∀ i, 0 ≤ pheromoneIn i ∧ pheromoneIn i ≤ 1) :
    (0 ≤ (updateFieldsCell fp resIn pheromoneIn terrain cosq sinq sqrtq
          x y).1 ∧
        (updateFieldsCell fp resIn pheromoneIn terrain cosq sinq sqrtq
          x y).1 ≤ 1) ∧
      (0 ≤ (updateFieldsCell fp resIn pheromoneIn terrain cosq sinq sqrtq
          x y).2 ∧
        (updateFieldsCell fp resIn pheromoneIn terrain cosq sinq sqrtq
          x y).2 ≤ 1) ∧
      (0 ≤ updateDangerCell fp dangerIn resConsumeMicro x y ∧
        updateDangerCell fp dangerIn resConsumeMicro x y ≤ 1) := by
  refine ⟨?_, ?_, ?_⟩ <;>
    simp only [updateFieldsCell, updateDangerCell] <;>
    exact clampq_le (by norm_num)

/-- Witness for `fields_stay_in_unit_interval` on concrete all-zero
fields. -/
theorem fields_stay_in_unit_interval_witness :
    (∀ i : ℕ, 0 ≤ (fun _ => (0 : ℚ)) i ∧ (fun _ => (0 : ℚ)) i ≤ 1) ∧
      (0 ≤ (updateFieldsCell ⟨4, 0, 0, 0, 0, 0, 0, 0, 0, 0⟩ (fun _ => 0)
            (fun _ => 0) (fun _ => 0) (fun q => q) (fun q => q) (fun q => q)
            0 0).1 ∧
        (updateFieldsCell ⟨4, 0, 0, 0, 0, 0, 0, 0, 0, 0⟩ (fun _ => 0)
            (fun _ => 0) (fun _ => 0) (fun q => q) (fun q => q) (fun q => q)
            0 0).1 ≤ 1) ∧
      (0 ≤ updateDangerCell ⟨4, 0, 0, 0, 0, 0, 0, 0, 0, 0⟩ (fun _ => 0)
          (fun _ => 0) 0 0 ∧
        updateDangerCell ⟨4, 0, 0, 0, 0, 0, 0, 0, 0, 0⟩ (fun _ => 0)
            (fun _ => 0) 0 0 ≤ 1) :=
  ⟨fun i => ⟨le_refl 0, zero_le_one⟩,
    (fields_stay_in_unit_interval ⟨4, 0, 0, 0, 0, 0, 0, 0, 0, 0⟩
        (fun _ => 0) (fun _ => 0) (fun _ => 0) (fun _ => 0) (fun _ => 0)
        (fun q => q) (fun q => q) (fun q => q) 0 0
        (fun i => ⟨le_refl 0, zero_le_one⟩)
        (fun i => ⟨le_refl 0, zero_le_one⟩)
        (fun i => ⟨le_refl 0, zero_le_one⟩)).1,
    (fields_stay_in_unit_interval ⟨4, 0, 0, 0, 0, 0, 0, 0, 0, 0⟩
        (fun _ => 0) (fun _ => 0) (fun _ => 0) (fun _ => 0) (fun _ => 0)
        (fun q => q) (fun q => q) (fun q => q) 0 0
        (fun i => ⟨le_refl 0, zero_le_one⟩)
        (fun i => ⟨le_refl 0, zero_le_one⟩)
        (fun i => ⟨le_refl 0, zero_le_one⟩)).2.2⟩

/-- **C2.** The danger feedback loop.  (1) From `agents.wgsl` (in the
snapshot): an `updateAgents` invocation whose mode decision is `INTAKE`
atomically adds the consumed amount
`uptake(res, absorption) · efficiency · uptakeScale · penalty · dt`,
in micro units, to the `resConsumeMicro` accumulator of the cell the
agent ends the tick in.  (2)–(3) From the spec-modelled danger path of
the field-update kernel (`updateDangerCell`): each invocation writes a
new danger value per cell, equal to the danger diffused and decayed at
its own rates plus the fraction `dangerFromConsumption` of the
consumed amount read from that accumulator, clamped to `[0,1]`; with a
zero accumulator exactly the diffused-and-decayed value remains. -/
theorem danger_absorbs_consumption (fp : FieldParams) (dangerIn : ℕ → ℚ)
    (resConsumeMicro : ℕ → ℕ) (x y : ℤ) (p : SimParams)
    (resF terrainF dangerF pherF : ℕ → ℚ) (cosq sinq sqrtq : ℚ → ℚ)
    (idx : ℕ) (agent : Agent) (hidx : idx < p.agentCount)
    (halive : ¬ agent.alive = 0)
    (hmode : modeDecision p agent.energy agent.reproThreshold agent.cooldown
      agent.absorption agent.efficiency
      (resF (fieldIdx p.gridSize agent.posX agent.posY))
      (dangerF (fieldIdx p.gridSize agent.posX agent.posY)) = MODE_INTAKE) :
    ((updateAgents p resF terrainF dangerF pherF cosq sinq sqrtq idx
        agent).resConsumeAdd =
      some (fieldIdx p.gridSize
          (updateAgents p resF terrainF dangerF pherF cosq sinq sqrtq idx
            agent).agent.posX
          (updateAgents p resF terrainF dangerF pherF cosq sinq sqrtq idx
            agent).agent.posY,
        ratToU32 (uptakeMM p.saturationK
            (resF (fieldIdx p.gridSize agent.posX agent.posY))
            agent.absorption * agent.efficiency * p.uptakeScale *
          clampq (1 - dangerF (fieldIdx p.gridSize agent.posX agent.posY) *
            0.9) 0 1 * p.deltaTime * 1000000))) ∧
      (updateDangerCell fp dangerIn resConsumeMicro x y =
        clampq ((dangerIn (torusIdx fp.gridSize x y) +
            laplacianQ dangerIn fp.gridSize x y * fp.diffusionCoeff *
              fp.dangerDiffusionScale * fp.deltaTime) *
            (1 - fp.dangerDecay * fp.deltaTime) +
          (resConsumeMicro (torusIdx fp.gridSize x y) : ℚ) / 1000000 *
            fp.dangerFromConsumption) 0 1) ∧
      (updateDangerCell fp dangerIn (fun j => 0) x y =
        clampq ((dangerIn (torusIdx fp.gridSize x y) +
            laplacianQ dangerIn fp.gridSize x y * fp.diffusionCoeff *
              fp.dangerDiffusionScale * fp.deltaTime) *
            (1 - fp.dangerDecay * fp.deltaTime)) 0 1) := by
  have hguard : ¬ idx ≥ p.agentCount := not_le.mpr hidx
  refine ⟨?_, rfl, ?_⟩
  · simp only [updateAgents, hguard, if_false, halive, hmode, ite_false,
      ite_true, if_true, eq_self_iff_true]
  · simp only [updateDangerCell]
    norm_num

/-- Witness for `danger_absorbs_consumption`: a concrete agent on a
uniform resource field whose mode decision is `INTAKE` produces a
micro-accumulator add. -/
theorem danger_absorbs_consumption_witness :
    0 < witnessParams.agentCount ∧
      ¬ ({ witnessAgent with energy := 10 } : Agent).alive = 0 ∧
      modeDecision witnessParams 10 100 0 1 1 1 0 = MODE_INTAKE ∧
      (updateAgents witnessParams (fun _ => 1) (fun _ => 1) (fun _ => 0)
          (fun _ => 0) (fun q => q) (fun q => q) (fun q => q) 0
          { witnessAgent with energy := 10 }).resConsumeAdd ≠ none := by
  have h1 : (0 : ℕ) < witnessParams.agentCount := by decide
  have h2 : ¬ ({ witnessAgent with energy := 10 } : Agent).alive = 0 := by
    decide
  have h3 : modeDecision witnessParams 10 100 0 1 1 1 0 = MODE_INTAKE := by
    norm_num [modeDecision, uptakeMM, clampq, witnessParams, MODE_INTAKE]
  refine ⟨h1, h2, h3, ?_⟩
  rw [(danger_absorbs_consumption ⟨4, 0, 0, 0, 0, 0, 0, 0, 0, 0⟩
      (fun _ => 0) (fun _ => 0) 0 0 witnessParams (fun _ => 1) (fun _ => 1)
      (fun _ => 0) (fun _ => 0) (fun q => q) (fun q => q) (fun q => q) 0
      { witnessAgent with energy := 10 } h1 h2 h3).1]
  exact fun h => Option.noConfusion h

/-- **C7 refutation** (code bug).  The claim says the kernels fold
traits of dying agents and newborn children into the per-trait
"recent deaths" / "recent births" accumulators.  In the `agents.wgsl`
of the snapshot, the death branch of `updateAgents` performs only
`atomicAdd(&metrics.deaths, 1)` (slot 2) and
`atomicSub(&metrics.alive, 1)` (slot 0), and a spawning invocation of
`processReproduction` performs only `atomicAdd(&metrics.births, 1)`
(slot 1) and `atomicAdd(&metrics.alive, 1)` (slot 0): every per-trait
accumulator slot (`11..16` recent-births sums, `17..22` recent-deaths
sums, as allocated and read back by `agent-system.ts`) is left
unchanged by both kernels, for every dying agent, every child and
every metrics state — while the host code of the same snapshot
allocates those 23 slots and divides them by the birth/death counts for
its evolutionary-trend readout. -/
theorem metrics_trait_accumulators_never_written (a child : Agent)
    (m : Fin 23 → ℕ) (i : Fin 23) (hi : 11 ≤ (i : ℕ)) :
    applyDeathMetrics a m i = m i ∧ applyBirthMetrics child m i = m i := by
  unfold applyDeathMetrics applyBirthMetrics
  have h2 : ¬ (i : ℕ) = 2 := by omega
  have h0 : ¬ (i : ℕ) = 0 := by omega
  have h1 : ¬ (i : ℕ) = 1 := by omega
  rw [if_neg h2, if_neg h0, if_neg h1, if_neg h0]
  exact ⟨rfl, rfl⟩

/-- Witness for `metrics_trait_accumulators_never_written` at the first
recent-deaths trait slot (17). -/
theorem metrics_trait_accumulators_never_written_witness :
    11 ≤ (((⟨17, by norm_num⟩ : Fin 23)) : ℕ) ∧
      (applyDeathMetrics witnessAgent (fun j => (j : ℕ))
          ⟨17, by norm_num⟩ =
          (fun (j : Fin 23) => (j : ℕ)) (⟨17, by norm_num⟩ : Fin 23) ∧
        applyBirthMetrics witnessAgent (fun j => (j : ℕ))
            ⟨17, by norm_num⟩ =
          (fun (j : Fin 23) => (j : ℕ)) (⟨17, by norm_num⟩ : Fin 23)) :=
  ⟨by norm_num,
    metrics_trait_accumulators_never_written witnessAgent witnessAgent
      (fun j => (j : ℕ)) ⟨17, by norm_num⟩ (by norm_num)⟩

theorem fieldIdx_lt_sq (g : ℕ) (hg : 1 ≤ g) (x y : ℚ) :
    fieldIdx g x y < g * g := by
  unfold fieldIdx
  have hcast : ((g : ℚ)) - 1 = ((g - 1 : ℕ) : ℚ) := by
    push_cast [hg]
    ring
  have hle : (0 : ℚ) ≤ (g : ℚ) - 1 := by
    rw [hcast]
    exact Nat.cast_nonneg _
  have hbound : ∀ z : ℚ, ⌊clampq z 0 ((g : ℚ) - 1)⌋.toNat ≤ g - 1 := by
    intro z
    have h1 : clampq z 0 ((g : ℚ) - 1) ≤ ((g - 1 : ℕ) : ℚ) := by
      rw [← hcast]
      exact (clampq_le hle).2
    have h2 : ⌊clampq z 0 ((g : ℚ) - 1)⌋ ≤ ((g - 1 : ℕ) : ℤ) := by
      have := Int.floor_le_floor h1
      rwa [Int.floor_natCast] at this
    calc ⌊clampq z 0 ((g : ℚ) - 1)⌋.toNat
        ≤ ((g - 1 : ℕ) : ℤ).toNat := Int.toNat_le_toNat h2
      _ = g - 1 := Int.toNat_natCast _
  have hx := hbound x
  have hy := hbound y
  obtain ⟨k, rfl⟩ : ∃ k, g = k + 1 := ⟨g - 1, by omega⟩
  simp only [Nat.add_sub_cancel] at hx hy
  nlinarith [hx, hy]

/-- **C10.** Newborn placement is unclamped but safe.  (1) The child
position is the parent position plus a random unit direction scaled by
`5.0` with no clamping, so for some parent within `5` units of the grid
boundary the newborn's coordinates lie outside `[0, gridSize-1]` —
whatever unit direction the hash selects.  (2) Every field access on
any position, in-bounds or not, yields an in-range array index, because
`fieldIdx` clamps both coordinates to `[0, gridSize-1]`.  (3) The
position is brought back into `[0, gridSize-1]` at the child's first
live `updateAgents` step, which clamps both coordinates. -/
theorem newborn_position_outside_grid_is_safe (g : ℕ) (hg : 2 ≤ g)
    (cosq sinq : ℚ → ℚ) (time : ℚ) (idx : ℕ)
    (hunit : ∀ θ, cosq θ * cosq θ + sinq θ * sinq θ = 1) :
    (∃ parent : Agent,
      (0 ≤ parent.posX ∧ parent.posX ≤ (g : ℚ) - 1 ∧ 0 ≤ parent.posY ∧
        parent.posY ≤ (g : ℚ) - 1) ∧
      (parent.posX ≤ 5 ∨ (g : ℚ) - 1 - parent.posX ≤ 5 ∨ parent.posY ≤ 5 ∨
        (g : ℚ) - 1 - parent.posY ≤ 5) ∧
      ((makeChild cosq sinq time idx parent).posX < 0 ∨
        (g : ℚ) - 1 < (makeChild cosq sinq time idx parent).posX ∨
        (makeChild cosq sinq time idx parent).posY < 0 ∨
        (g : ℚ) - 1 < (makeChild cosq sinq time idx parent).posY)) ∧
    (∀ x y : ℚ, fieldIdx g x y < g * g) ∧
    (∀ (p : SimParams) (resF terrainF dangerF pherF : ℕ → ℚ)
      (sqrtq : ℚ → ℚ) (j : ℕ) (agent : Agent), p.gridSize = g →
      j < p.agentCount → ¬ agent.alive = 0 →
      0 ≤ (updateAgents p resF terrainF dangerF pherF cosq sinq sqrtq j
          agent).agent.posX ∧
        (updateAgents p resF terrainF dangerF pherF cosq sinq sqrtq j
          agent).agent.posX ≤ (g : ℚ) - 1 ∧
        0 ≤ (updateAgents p resF terrainF dangerF pherF cosq sinq sqrtq j
          agent).agent.posY ∧
        (updateAgents p resF terrainF dangerF pherF cosq sinq sqrtq j
          agent).agent.posY ≤ (g : ℚ) - 1) := by
  have hgq : (2 : ℚ) ≤ (g : ℚ) := by exact_mod_cast hg
  have hg1 : (0 : ℚ) ≤ (g : ℚ) - 1 := by linarith
  refine ⟨?_, fun x y => fieldIdx_lt_sq g (by omega) x y, ?_⟩
  · set seed := idx * 7919 + ratToU32 (time * 1000) with hseed
    set θ := hashQ seed * 6.28318 with hθ
    have hcs := hunit θ
    have hchildX : ∀ parent : Agent,
        (makeChild cosq sinq time idx parent).posX =
          parent.posX + 5 * cosq θ := by
      intro parent
      simp [makeChild, vScale, randomDir, hseed, hθ]
    have hchildY : ∀ parent : Agent,
        (makeChild cosq sinq time idx parent).posY =
          parent.posY + 5 * sinq θ := by
      intro parent
      simp [makeChild, vScale, randomDir, hseed, hθ]
    rcases (show cosq θ * cosq θ ≥ 1 / 2 ∨ sinq θ * sinq θ ≥ 1 / 2 by
        by_contra hcon
        push_neg at hcon
        nlinarith [hcon.1, hcon.2]) with hbig | hbig
    · rcases le_or_lt (cosq θ) 0 with hc | hc
      · have hc7 : cosq θ ≤ -(7 / 10) := by nlinarith
        refine ⟨⟨0, 0, 0, 0, 0, 0, 0, 0, 0, 0, 0, 0, 0, 0, 0, 0, 0, 0, 0,
          0, 1, 0, 0⟩, ⟨le_refl 0, hg1, le_refl 0, hg1⟩, ?_, ?_⟩
        · exact Or.inl (by norm_num)
        · refine Or.inl ?_
          rw [hchildX]
          simp only
          linarith
      · have hc7 : (7 / 10 : ℚ) ≤ cosq θ := by nlinarith
        refine ⟨⟨(g : ℚ) - 1, 0, 0, 0, 0, 0, 0, 0, 0, 0, 0, 0, 0, 0, 0, 0,
          0, 0, 0, 0, 1, 0, 0⟩, ⟨hg1, le_refl _, le_refl 0, hg1⟩, ?_, ?_⟩
        · exact Or.inr (Or.inl (by simp only; linarith))
        · refine Or.inr (Or.inl ?_)
          rw [hchildX]
          simp only
          linarith
    · rcases le_or_lt (sinq θ) 0 with hs | hs
      · have hs7 : sinq θ ≤ -(7 / 10) := by nlinarith
        refine ⟨⟨0, 0, 0, 0, 0, 0, 0, 0, 0, 0, 0, 0, 0, 0, 0, 0, 0, 0, 0,
          0, 1, 0, 0⟩, ⟨le_refl 0, hg1, le_refl 0, hg1⟩, ?_, ?_⟩
        · exact Or.inl (by norm_num)
        · refine Or.inr (Or.inr (Or.inl ?_))
          rw [hchildY]
          simp only
          linarith
      · have hs7 : (7 / 10 : ℚ) ≤ sinq θ := by nlinarith
        refine ⟨⟨0, (g : ℚ) - 1, 0, 0, 0, 0, 0, 0, 0, 0, 0, 0, 0, 0, 0, 0,
          0, 0, 0, 0, 1, 0, 0⟩, ⟨le_refl 0, hg1, hg1, le_refl _⟩, ?_, ?_⟩
        · exact Or.inl (by norm_num)
        · refine Or.inr (Or.inr (Or.inr ?_))
          rw [hchildY]
          simp only
          linarith
  · intro p resF terrainF dangerF pherF sqrtq j agent hpg hj halive
    have hguard : ¬ j ≥ p.agentCount := not_le.mpr hj
    simp only [updateAgents, hguard, if_false, halive, ite_false]
    rw [hpg]
    exact ⟨(clampq_le hg1).1, (clampq_le hg1).2, (clampq_le hg1).1,
      (clampq_le hg1).2⟩

/-- Witness for `newborn_position_outside_grid_is_safe` at grid size
`1024` with the concrete unit direction `(1, 0)`. -/
theorem newborn_position_outside_grid_is_safe_witness :
    (2 ≤ 1024 ∧ ∀ θ : ℚ, (fun _ => (1 : ℚ)) θ * (fun _ => (1 : ℚ)) θ +
      (fun _ => (0 : ℚ)) θ * (fun _ => (0 : ℚ)) θ = 1) ∧
      (∀ x y : ℚ, fieldIdx 1024 x y < 1024 * 1024) :=
  ⟨⟨by norm_num, fun θ => by norm_num⟩,
    (newborn_position_outside_grid_is_safe 1024 (by norm_num)
      (fun _ => 1) (fun _ => 0) 0 0 (fun θ => by norm_num)).2.1⟩
